import Mathlib

/-
Verification of the GraminStore per-merchant ledger backend.

This file gives a shallow embedding, in Lean 4, of the ledger-relevant parts
of the backend (src/backend/app): the per-merchant dynamic transaction tables,
guest-identity provisioning, the transaction write path, scan analytics, the
marketplace checkout orchestration with its websocket notification fan-out,
and the inventory purchase-list upsert.  Database tables are modelled as
association lists, SQLAlchemy sessions as explicit state passing, raised
exceptions as Except values, and the uuid4-based id generation as a fresh
counter (two distinct uuid4 calls are modelled as producing distinct tokens).
-/

namespace GraminStore

/-- Transaction types enum (app/models/transaction.py, class TransactionType). -/
inductive TransactionType
  | PAYED
  | PAY_LATER
deriving DecidableEq, Repr

/-- Payment method enum (app/models/transaction.py, class PaymentMethod). -/
inductive PaymentMethod
  | online
  | cash
deriving DecidableEq, Repr

/--
One row of a merchant ledger table transaction_<merchant_id>
(columns as declared in create_merchant_transaction_table).
Numeric(10,2) amounts are modelled as rationals, DateTime as Int seconds.
-/
structure LedgerRow where
  transaction_id : Nat
  user_id : Option Nat
  timestamp : Int
  amount : Rat
  type : TransactionType
  description : Option String
  payment_method : Option PaymentMethod
  guest_user_id : Option Nat
deriving DecidableEq, Repr

/-- A guest_users row (app/models/guest_user.py, class GuestUser). -/
structure GuestUser where
  id : Nat
  merchant_id : Nat
  transaction_id : Nat
deriving DecidableEq, Repr

/--
Database state seen by the ledger operations: the merchant ledger tables
(presence of a key models existence of the table transaction_<merchant_id>),
the guest_users table, and the autoincrement counter for guest_users.id.
-/
structure DBState where
  ledgers : List (Nat × List LedgerRow)
  guestUsers : List GuestUser
  nextGuestId : Nat
deriving DecidableEq, Repr

/-- get_merchant_transaction_table: metadata lookup of the merchant table. -/
def get_merchant_transaction_table (s : DBState) (mid : Nat) : Option (List LedgerRow) :=
  s.ledgers.lookup mid

/-- Store rows under a merchant key, replacing the previous binding. -/
def updateAssoc : List (Nat × List LedgerRow) → Nat → List LedgerRow → List (Nat × List LedgerRow)
  | [], mid, rows => [(mid, rows)]
  | (k, v) :: rest, mid, rows =>
      if k = mid then (mid, rows) :: rest else (k, v) :: updateAssoc rest mid rows

/-- Write the rows of one merchant ledger table back into the state. -/
def setLedger (s : DBState) (mid : Nat) (rows : List LedgerRow) : DBState :=
  { s with ledgers := updateAssoc s.ledgers mid rows }

/-- Rows of a merchant ledger, empty when the table does not exist. -/
def ledgerOf (s : DBState) (mid : Nat) : List LedgerRow :=
  (get_merchant_transaction_table s mid).getD []

/--
get_or_create_guest_user: query guest_users by merchant id and return the
first hit; otherwise insert a placeholder row (transaction_id 0) and return
its fresh id.
-/
def get_or_create_guest_user (s : DBState) (mid : Nat) : Nat × DBState :=
  match s.guestUsers.find? (fun g => g.merchant_id == mid) with
  | some g => (g.id, s)
  | none =>
      let g : GuestUser := ⟨s.nextGuestId, mid, 0⟩
      (g.id, { s with guestUsers := s.guestUsers ++ [g], nextGuestId := s.nextGuestId + 1 })

/--
insert_transaction (app/models/transaction.py): ensure the merchant table,
default the timestamp to now, resolve the guest identity when
is_guest_transaction is set (overriding user_id), and append the row with
guest_user_id equal to user_id on guest rows and NULL otherwise.
Returns (transaction_id, resolved user_id) exactly like the source.
-/
def insert_transaction (s : DBState) (merchant_id : Nat) (user_id : Option Nat)
    (amount : Rat) (transaction_type : TransactionType) (description : Option String)
    (payment_method : Option PaymentMethod) (timestamp : Option Int) (now : Int)
    (is_guest_transaction : Bool) : (Nat × Option Nat) × DBState :=
  let ts := timestamp.getD now
  let resolved :=
    if is_guest_transaction then
      let r := get_or_create_guest_user s merchant_id
      (some r.1, r.2)
    else (user_id, s)
  let uid := resolved.1
  let s1 := resolved.2
  let rows := ledgerOf s1 merchant_id
  let row : LedgerRow :=
    { transaction_id := rows.length + 1
      user_id := uid
      timestamp := ts
      amount := amount
      type := transaction_type
      description := description
      payment_method := payment_method
      guest_user_id := if is_guest_transaction then uid else none }
  ((row.transaction_id, uid), setLedger s1 merchant_id (rows ++ [row]))

/-- Analytics record returned by get_merchant_transaction_analytics. -/
structure TransactionAnalytics where
  total_sales : Rat
  total_transactions : Nat
  total_pending : Rat
  avg_transaction : Rat
deriving DecidableEq, Repr

/-- Sum of the amount column over a list of rows (SQL SUM, with NULL read as 0). -/
def sumAmounts (rows : List LedgerRow) : Rat :=
  (rows.map (fun r => r.amount)).sum

/-- Seconds in one day, the unit of timedelta(days=...). -/
def secondsPerDay : Int := 86400

/-- date_filter = utcnow() - timedelta(days=days). -/
def windowCutoff (now : Int) (days : Nat) : Int :=
  now - (days : Int) * secondsPerDay

/-- The WHERE clause timestamp >= date_filter used by every analytics query. -/
def inWindow (cutoff : Int) (r : LedgerRow) : Bool :=
  decide (cutoff ≤ r.timestamp)

/--
get_merchant_transaction_analytics: all four aggregates are zero when the
table does not exist; otherwise SUM over PAYED rows in the window, COUNT of
rows in the window, SUM over PAY_LATER rows in the window, and AVG over rows
in the window, each with SQL NULL coalesced to 0 (the `or 0` in the source).
The Lean function is total: no code path raises.
-/
def get_merchant_transaction_analytics (s : DBState) (mid : Nat) (days : Nat)
    (now : Int) : TransactionAnalytics :=
  match get_merchant_transaction_table s mid with
  | none => ⟨0, 0, 0, 0⟩
  | some rows =>
      let cutoff := windowCutoff now days
      let w := rows.filter (fun r => inWindow cutoff r)
      let sales := sumAmounts (w.filter (fun r => r.type == TransactionType.PAYED))
      let pending := sumAmounts (w.filter (fun r => r.type == TransactionType.PAY_LATER))
      let avg := if w.length = 0 then 0 else sumAmounts w / (w.length : Rat)
      ⟨sales, w.length, pending, avg⟩

/--
A SQLAlchemy Table object for one merchant ledger.  The stamp field models
Python object identity: each call of the Table constructor yields a new stamp,
so two handles are the same object exactly when their stamps agree.
-/
structure TableHandle where
  merchant_id : Nat
  stamp : Nat
deriving DecidableEq, Repr

/--
State of the ledger registry: metadata.tables (the process-wide cache of
schema handles, keyed by merchant id), the set of tables physically present
in the database, and the stamp supply for newly constructed Table objects.
-/
structure RegistryState where
  tables : List (Nat × TableHandle)
  dbTables : List Nat
  nextStamp : Nat
deriving DecidableEq, Repr

/--
The CREATE TABLE statement issued by Table.create.  With checkfirst set
(the source always passes checkfirst=True) an existing table makes the
call a no-op; without it the statement errors on an existing table.
-/
def ddl_create (db : List Nat) (mid : Nat) (checkfirst : Bool) : Except String (List Nat) :=
  if mid ∈ db then
    if checkfirst then Except.ok db else Except.error ("table exists")
  else Except.ok (mid :: db)

/--
create_merchant_transaction_table: return the cached handle when
metadata.tables already holds one for this merchant; otherwise construct a
new Table object, issue create-if-not-exists DDL, cache and return it.
-/
def create_merchant_transaction_table (s : RegistryState) (mid : Nat) :
    Except String (TableHandle × RegistryState) :=
  match s.tables.lookup mid with
  | some t => Except.ok (t, s)
  | none =>
      let t : TableHandle := ⟨mid, s.nextStamp⟩
      match ddl_create s.dbTables mid true with
      | Except.ok db1 =>
          Except.ok (t, { tables := (mid, t) :: s.tables, dbTables := db1,
                          nextStamp := s.nextStamp + 1 })
      | Except.error e => Except.error e

/-- Errors signalled by the API routes (HTTPException detail strings). -/
inductive ApiError
  | missingUser
  | guestPayLater
  | invalidPaymentMethod
  | emptyCart
  | itemNotFound
deriving DecidableEq, Repr

/--
TransactionCreate request schema (app/schemas/transaction.py).  The pydantic
constraint Field(gt=0) on amount is modelled by the isValid predicate below;
the framework rejects requests that fail it before the route body runs.
-/
structure TransactionCreate where
  user_id : Option Nat
  amount : Rat
  type : TransactionType
  description : Option String
  payment_method : Option PaymentMethod
  reference_number : Option String
  is_guest_transaction : Bool
deriving DecidableEq, Repr

/-- The Field(gt=0) validation on TransactionCreate.amount. -/
def TransactionCreate.isValid (d : TransactionCreate) : Bool :=
  decide (0 < d.amount)

/--
POST /transactions/create (app/api/v1/transactions.py, create_transaction):
reject when neither user_id nor the guest flag is given, reject guest
PAY_LATER requests, and otherwise call insert_transaction on the
authenticated merchant id.
-/
def create_transaction (s : DBState) (merchantId : Nat) (d : TransactionCreate)
    (now : Int) : Except ApiError ((Nat × Option Nat) × DBState) :=
  if d.user_id.isNone && !d.is_guest_transaction then
    Except.error ApiError.missingUser
  else if d.is_guest_transaction && d.type == TransactionType.PAY_LATER then
    Except.error ApiError.guestPayLater
  else
    Except.ok (insert_transaction s merchantId d.user_id d.amount d.type
      d.description d.payment_method none now d.is_guest_transaction)

/-- A cart line of the checkout request (app/api/v1/orders.py, CartItem). -/
structure CartItem where
  id : Nat
  name : String
  unit_price : Rat
  quantity : Int
  unit : String
  merchant_id : Nat
  merchant_name : String
  category : String
deriving DecidableEq, Repr

/-- Checkout request body (app/api/v1/orders.py, CheckoutRequest). -/
structure CheckoutRequest where
  cart_items : List CartItem
  payment_method : String
  customer_name : Option String
  customer_phone : Option String
  is_guest_order : Bool
deriving DecidableEq, Repr

/--
A human-readable order id ORD_<merchant_id>_<uuid4 hex8>.  The uuid token is
modelled as the value of a per-run fresh counter: distinct uuid4 calls give
distinct tokens.
-/
structure OrderId where
  merchant_id : Nat
  token : Nat
deriving DecidableEq, Repr

/-- An order_items row (app/models/order.py, OrderItem). -/
structure OrderItemRow where
  order_ref : Nat
  item_id : Nat
  item_name : String
  item_category : String
  quantity : Int
  unit : String
  unit_price : Rat
  total_price : Rat
deriving DecidableEq, Repr

/-- An orders row (app/models/order.py, Order) with its item rows. -/
structure OrderRow where
  id : Nat
  order_id : OrderId
  transaction_id : Nat
  merchant_id : Nat
  user_id : Option Nat
  guest_user_id : Option Nat
  customer_name : String
  customer_phone : Option String
  total_amount : Rat
  payment_method : String
  is_guest_order : Bool
  status : String
  created_at : Int
  items : List OrderItemRow
deriving DecidableEq, Repr

/--
The new_order websocket payload built in process_checkout (order_data):
the fields of the persisted order that the notification carries and that the
delivery logic inspects.
-/
structure OrderEvent where
  order_id : OrderId
  transaction_id : Nat
  user_id : Option Nat
  merchant_id : Nat
  amount : Rat
  is_guest_order : Bool
deriving DecidableEq, Repr

/--
ConnectionManager state (app/api/v1/websocket.py) together with a log of
performed deliveries: merchantConns and userConns map a recipient id to its
open connection ids, and each successful send_text is recorded as
(recipient, connection, event).
-/
structure NotifState where
  merchantConns : List (Nat × List Nat)
  userConns : List (Nat × List Nat)
  merchantDeliveries : List (Nat × Nat × OrderEvent)
  userDeliveries : List (Nat × Nat × OrderEvent)
deriving DecidableEq, Repr

/-- send_to_merchant: deliver the message on every open connection of the merchant. -/
def send_to_merchant (ns : NotifState) (mid : Nat) (ev : OrderEvent) : NotifState :=
  let conns := (ns.merchantConns.lookup mid).getD []
  { ns with merchantDeliveries :=
      ns.merchantDeliveries ++ conns.map (fun c => (mid, c, ev)) }

/-- send_to_user: deliver the message on every open connection of the user. -/
def send_to_user (ns : NotifState) (uid : Nat) (ev : OrderEvent) : NotifState :=
  let conns := (ns.userConns.lookup uid).getD []
  { ns with userDeliveries :=
      ns.userDeliveries ++ conns.map (fun c => (uid, c, ev)) }

/--
notify_order_update: send the new_order message to the merchant, and, when
order_data carries a truthy user_id (Python treats None and 0 as falsy),
also to that user.
-/
def notify_order_update (ns : NotifState) (mid : Nat) (ev : OrderEvent) : NotifState :=
  let ns1 := send_to_merchant ns mid ev
  match ev.user_id with
  | some u => if u ≠ 0 then send_to_user ns1 u ev else ns1
  | none => ns1

/-- One entry of processed_orders accumulated by the checkout loop. -/
structure ProcessedOrder where
  order_id : OrderId
  merchant_id : Nat
  amount : Rat
  items_count : Nat
deriving DecidableEq, Repr

/-- Checkout response body (app/api/v1/orders.py, OrderResponse). -/
structure OrderResponse where
  order_id : OrderId
  total_amount : Rat
  items_count : Nat
  merchant_id : Nat
  timestamp : Int
deriving DecidableEq, Repr

/--
Whole-application state touched by process_checkout: the ledger database,
the orders table with its id supply, the uuid4 token supply, and the
websocket connection manager.
-/
structure CheckoutState where
  db : DBState
  orders : List OrderRow
  nextOrderRowId : Nat
  uuid : Nat
  notif : NotifState
deriving DecidableEq, Repr

/-- PaymentMethod(checkout_data.payment_method): ValueError on unknown values. -/
def paymentMethodOfString (s : String) : Except ApiError PaymentMethod :=
  if s == "online" then Except.ok PaymentMethod.online
  else if s == "cash" then Except.ok PaymentMethod.cash
  else Except.error ApiError.invalidPaymentMethod

/-- The items_description string built per merchant partition. -/
def itemsDescription (items : List CartItem) : String :=
  String.intercalate ", "
    (items.map (fun i => i.name ++ " (" ++ toString i.quantity ++ " " ++ i.unit ++ ")"))

/-- Subtotal of one merchant partition: sum of unit_price * quantity. -/
def merchantTotal (items : List CartItem) : Rat :=
  (items.map (fun i => i.unit_price * (i.quantity : Rat))).sum

/--
First-occurrence deduplication, the key order of a Python dict built by
insertion: the merchant partitions of the cart in the order the loop visits
them.
-/
def firstOccurAux : List Nat → List Nat → List Nat
  | [], _ => []
  | x :: xs, seen =>
      if x ∈ seen then firstOccurAux xs seen else x :: firstOccurAux xs (x :: seen)

/-- The merchant ids of the cart, first occurrence first (dict insertion order). -/
def merchantsOf (items : List CartItem) : List Nat :=
  firstOccurAux (items.map (fun i => i.merchant_id)) []

/-- Result of one iteration of the per-merchant checkout loop. -/
structure StepResult where
  processed : ProcessedOrder
  order : OrderRow
  event : Nat × OrderEvent
  state : CheckoutState
deriving Repr

/--
One iteration of the checkout loop for merchant mid: compute the subtotal,
generate the route-local order id (one uuid4 call), insert the ledger
transaction (always PAYED, guest flag from the request), persist the Order
row — create_order generates its own, distinct order id with a second uuid4
call — with one OrderItem per cart line (unit defaults to piece because the
route omits the unit key), and fire the websocket notification built from
the persisted order.
-/
def checkoutStep (req : CheckoutRequest) (pm : PaymentMethod) (now : Int)
    (st : CheckoutState) (mid : Nat) : StepResult :=
  let items := req.cart_items.filter (fun i => i.merchant_id == mid)
  let total := merchantTotal items
  let route_order_id : OrderId := ⟨mid, st.uuid⟩
  let ir := insert_transaction st.db mid none total TransactionType.PAYED
      (some ("Marketplace Order: " ++ itemsDescription items)) (some pm) none now
      req.is_guest_order
  let tid := ir.1.1
  let uid := ir.1.2
  let service_order_id : OrderId := ⟨mid, st.uuid + 1⟩
  let order : OrderRow :=
    { id := st.nextOrderRowId
      order_id := service_order_id
      transaction_id := tid
      merchant_id := mid
      user_id := uid
      guest_user_id := none
      customer_name := req.customer_name.getD "Guest Customer"
      customer_phone := req.customer_phone
      total_amount := total
      payment_method := req.payment_method
      is_guest_order := req.is_guest_order
      status := "pending"
      created_at := now
      items := items.map (fun i =>
        { order_ref := st.nextOrderRowId
          item_id := i.id
          item_name := i.name
          item_category := i.category
          quantity := i.quantity
          unit := "piece"
          unit_price := i.unit_price
          total_price := i.unit_price * (i.quantity : Rat) }) }
  let ev : OrderEvent :=
    { order_id := order.order_id
      transaction_id := order.transaction_id
      user_id := order.user_id
      merchant_id := order.merchant_id
      amount := order.total_amount
      is_guest_order := order.is_guest_order }
  { processed := ⟨route_order_id, mid, total, items.length⟩
    order := order
    event := (mid, ev)
    state :=
      { db := ir.2
        orders := st.orders ++ [order]
        nextOrderRowId := st.nextOrderRowId + 1
        uuid := st.uuid + 2
        notif := notify_order_update st.notif mid ev } }

/-- The per-merchant checkout loop over the partition keys. -/
def checkoutLoop (req : CheckoutRequest) (pm : PaymentMethod) (now : Int) :
    List Nat → CheckoutState →
    (List ProcessedOrder × List OrderRow × List (Nat × OrderEvent)) × CheckoutState
  | [], st => (([], [], []), st)
  | m :: ms, st =>
      let r := checkoutStep req pm now st m
      let rest := checkoutLoop req pm now ms r.state
      ((r.processed :: rest.1.1, r.order :: rest.1.2.1, r.event :: rest.1.2.2), rest.2)

/--
POST /orders/checkout (app/api/v1/orders.py, process_checkout): reject an
empty cart, parse the payment method (a ValueError surfaces as a generic
failure), partition the cart by merchant in first-occurrence order, run the
per-merchant loop, and aggregate a single response whose order_id and
merchant_id come from the first processed partition.
Returns the response together with the persisted orders, the notification
events, and the final state.
-/
def process_checkout (st : CheckoutState) (req : CheckoutRequest) (now : Int) :
    Except ApiError
      (OrderResponse × List OrderRow × List (Nat × OrderEvent) × CheckoutState) :=
  if req.cart_items.isEmpty then Except.error ApiError.emptyCart
  else
    match paymentMethodOfString req.payment_method with
    | Except.error e => Except.error e
    | Except.ok pm =>
        let ms := merchantsOf req.cart_items
        let run := checkoutLoop req pm now ms st
        let prs := run.1.1
        let resp : OrderResponse :=
          { order_id := ((prs.head?).map (fun p => p.order_id)).getD ⟨0, 0⟩
            total_amount := (prs.map (fun p => p.amount)).sum
            items_count := req.cart_items.length
            merchant_id := ((prs.head?).map (fun p => p.merchant_id)).getD 0
            timestamp := now }
        Except.ok (resp, run.1.2.1, run.1.2.2, run.2)

/--
An inventory_items row (app/models/inventory.py, InventoryItem), restricted
to the columns the purchase-list route reads: the primary key and the owning
merchant (the route only checks existence and ownership).
-/
structure InventoryItemRec where
  id : Nat
  merchant_id : Nat
deriving DecidableEq, Repr

/-- A purchase_list_items row (app/models/inventory.py, PurchaseListItem). -/
structure PurchaseListItem where
  id : Nat
  merchant_id : Nat
  inventory_item_id : Nat
  quantity_needed : Int
  is_purchased : Bool
deriving DecidableEq, Repr

/-- Database state for the inventory purchase-list route. -/
structure InventoryState where
  items : List InventoryItemRec
  purchase_list : List PurchaseListItem
  nextPurchaseId : Nat
deriving DecidableEq, Repr

/-- The open-entry filter of the purchase-list queries: same merchant, same inventory item, not yet purchased. -/
def openFor (mid itemId : Nat) (p : PurchaseListItem) : Bool :=
  p.merchant_id == mid && p.inventory_item_id == itemId && p.is_purchased == false

/--
POST /inventory/purchase-list (app/api/v1/inventory.py, add_to_purchase_list):
404 when the inventory item does not belong to the merchant; otherwise query
the first open purchase-list entry for the item and either overwrite its
quantity_needed or insert a fresh open entry.
-/
def add_to_purchase_list (s : InventoryState) (mid : Nat) (itemId : Nat)
    (qty : Int) : Except ApiError (PurchaseListItem × InventoryState) :=
  match s.items.find? (fun it => it.id == itemId && it.merchant_id == mid) with
  | none => Except.error ApiError.itemNotFound
  | some _ =>
      match s.purchase_list.find? (fun p => openFor mid itemId p) with
      | some p =>
          Except.ok ({ p with quantity_needed := qty },
            { s with purchase_list := s.purchase_list.map (fun q =>
                if q.id == p.id then { q with quantity_needed := qty } else q) })
      | none =>
          let np : PurchaseListItem := ⟨s.nextPurchaseId, mid, itemId, qty, false⟩
          Except.ok (np,
            { s with
                purchase_list := s.purchase_list ++ [np]
                nextPurchaseId := s.nextPurchaseId + 1 })

section Lemmas

lemma lookup_updateAssoc_self (l : List (Nat × List LedgerRow)) (mid : Nat)
    (rows : List LedgerRow) : (updateAssoc l mid rows).lookup mid = some rows := by
  induction l with
  | nil => simp [updateAssoc, List.lookup]
  | cons e rest ih =>
      obtain ⟨k, v⟩ := e
      by_cases h : k = mid
      · simp [updateAssoc, h, List.lookup]
      · simp only [updateAssoc, if_neg h, List.lookup]
        have hne : (mid == k) = false := by
          simp [beq_eq_false_iff_ne]
          exact fun hmk => h hmk.symm
        simp [hne, ih]

lemma ledgerOf_setLedger_self (s : DBState) (mid : Nat) (rows : List LedgerRow) :
    ledgerOf (setLedger s mid rows) mid = rows := by
  simp [ledgerOf, setLedger, get_merchant_transaction_table, lookup_updateAssoc_self]

lemma get_or_create_ledgers (s : DBState) (mid : Nat) :
    (get_or_create_guest_user s mid).2.ledgers = s.ledgers := by
  unfold get_or_create_guest_user
  cases s.guestUsers.find? (fun g => g.merchant_id == mid) <;> simp

lemma ledgerOf_get_or_create (s : DBState) (mid mid2 : Nat) :
    ledgerOf (get_or_create_guest_user s mid).2 mid2 = ledgerOf s mid2 := by
  simp [ledgerOf, get_merchant_transaction_table, get_or_create_ledgers]

/-- The user id insert_transaction resolves: the guest identity on guest rows, the caller value otherwise. -/
def resolvedUid (s : DBState) (mid : Nat) (uid : Option Nat) (g : Bool) : Option Nat :=
  if g then some (get_or_create_guest_user s mid).1 else uid

/-- The row that insert_transaction appends to the merchant ledger. -/
def insertedRow (s : DBState) (mid : Nat) (uid : Option Nat) (amount : Rat)
    (tt : TransactionType) (desc : Option String) (pm : Option PaymentMethod)
    (ts : Option Int) (now : Int) (g : Bool) : LedgerRow :=
  { transaction_id := (ledgerOf s mid).length + 1
    user_id := resolvedUid s mid uid g
    timestamp := ts.getD now
    amount := amount
    type := tt
    description := desc
    payment_method := pm
    guest_user_id := if g then resolvedUid s mid uid g else none }

lemma insert_transaction_ledger (s : DBState) (mid : Nat) (uid : Option Nat)
    (amount : Rat) (tt : TransactionType) (desc : Option String)
    (pm : Option PaymentMethod) (ts : Option Int) (now : Int) (g : Bool) :
    ledgerOf (insert_transaction s mid uid amount tt desc pm ts now g).2 mid
      = ledgerOf s mid ++ [insertedRow s mid uid amount tt desc pm ts now g] := by
  cases g with
  | false =>
      simp only [insert_transaction, insertedRow, resolvedUid]
      rw [ledgerOf_setLedger_self]
      simp
  | true =>
      simp only [insert_transaction, insertedRow, resolvedUid]
      rw [ledgerOf_setLedger_self]
      simp [ledgerOf_get_or_create]

lemma insert_transaction_result (s : DBState) (mid : Nat) (uid : Option Nat)
    (amount : Rat) (tt : TransactionType) (desc : Option String)
    (pm : Option PaymentMethod) (ts : Option Int) (now : Int) (g : Bool) :
    (insert_transaction s mid uid amount tt desc pm ts now g).1
      = ((ledgerOf s mid).length + 1, resolvedUid s mid uid g) := by
  cases g with
  | false => simp [insert_transaction, resolvedUid]
  | true => simp [insert_transaction, resolvedUid, ledgerOf_get_or_create]

end Lemmas

/--
C2.  Every row produced by insert_transaction is appended to the merchant
ledger with guest_user_id non-null exactly when the call was a guest
transaction, and a non-null guest_user_id always equals the row user_id.
-/
theorem inserted_row_guest_invariant (s : DBState) (mid : Nat) (uid : Option Nat)
    (amount : Rat) (tt : TransactionType) (desc : Option String)
    (pm : Option PaymentMethod) (ts : Option Int) (now : Int) (g : Bool) :
    ∃ row : LedgerRow,
      ledgerOf (insert_transaction s mid uid amount tt desc pm ts now g).2 mid
        = ledgerOf s mid ++ [row]
      ∧ (row.guest_user_id ≠ none ↔ g = true)
      ∧ (∀ x, row.guest_user_id = some x → row.user_id = some x) := by
  refine ⟨insertedRow s mid uid amount tt desc pm ts now g,
    insert_transaction_ledger s mid uid amount tt desc pm ts now g, ?_, ?_⟩
  · cases g <;> simp [insertedRow, resolvedUid]
  · intro x hx
    cases g <;> simp_all [insertedRow, resolvedUid]

/--
C3.  A guest insert resolves the single guest identity of the merchant:
the returned user id is the identity produced by get_or_create_guest_user
for every caller-supplied user_id (the caller value is overridden), the
appended row carries that identity in both user_id and guest_user_id, and
get_or_create_guest_user reuses an existing guest_users row unchanged and
inserts a placeholder only when none exists.
-/
theorem insert_guest_resolves_shared_identity (s : DBState) (mid : Nat)
    (uid : Option Nat) (amount : Rat) (tt : TransactionType) (desc : Option String)
    (pm : Option PaymentMethod) (ts : Option Int) (now : Int) :
    (insert_transaction s mid uid amount tt desc pm ts now true).1.2
        = some (get_or_create_guest_user s mid).1
    ∧ (∃ row : LedgerRow,
        ledgerOf (insert_transaction s mid uid amount tt desc pm ts now true).2 mid
          = ledgerOf s mid ++ [row]
        ∧ row.user_id = some (get_or_create_guest_user s mid).1
        ∧ row.guest_user_id = some (get_or_create_guest_user s mid).1)
    ∧ (s.guestUsers.find? (fun gu => gu.merchant_id == mid)).elim
        ((get_or_create_guest_user s mid).2.guestUsers
            = s.guestUsers ++ [⟨s.nextGuestId, mid, 0⟩]
          ∧ (get_or_create_guest_user s mid).1 = s.nextGuestId)
        (fun gu => (get_or_create_guest_user s mid).1 = gu.id
          ∧ (get_or_create_guest_user s mid).2 = s) := by
  refine ⟨?_, ?_, ?_⟩
  · rw [insert_transaction_result]
    simp [resolvedUid]
  · refine ⟨insertedRow s mid uid amount tt desc pm ts now true,
      insert_transaction_ledger s mid uid amount tt desc pm ts now true, ?_, ?_⟩
    · simp [insertedRow, resolvedUid]
    · simp [insertedRow, resolvedUid]
  · cases h : s.guestUsers.find? (fun gu => gu.merchant_id == mid) with
    | none => simp [get_or_create_guest_user, h]
    | some gu => simp [get_or_create_guest_user, h]

/--
C4.  When the merchant ledger table does not exist, or it holds no row
inside the analytics window, get_merchant_transaction_analytics returns all
four aggregates as zero.  The hypothesis states both cases at once: mapping
the window filter over the optional table yields the empty list (trivially
for a missing table).  The Lean function is total, mirroring the fact that
no code path of the source raises here.
-/
theorem analytics_zero_on_empty_window (s : DBState) (mid : Nat) (days : Nat)
    (now : Int)
    (h : ((get_merchant_transaction_table s mid).map
        (fun rows => rows.filter (fun r => inWindow (windowCutoff now days) r))).getD []
      = []) :
    get_merchant_transaction_analytics s mid days now = ⟨0, 0, 0, 0⟩ := by
  unfold get_merchant_transaction_analytics
  cases htab : get_merchant_transaction_table s mid with
  | none => rfl
  | some rows =>
      rw [htab] at h
      simp only [Option.map_some', Option.getD_some] at h
      simp [h, sumAmounts]

/--
Witness for C4 at a concrete input: the merchant table exists and holds one
row strictly older than the window, so every aggregate is zero.
-/
theorem analytics_zero_on_empty_window_witness :
    get_merchant_transaction_analytics
        ⟨[(1, [⟨1, none, -86401, 5, TransactionType.PAYED, none, none, none⟩])], [], 1⟩
        1 1 0 = ⟨0, 0, 0, 0⟩ :=
  analytics_zero_on_empty_window
    ⟨[(1, [⟨1, none, -86401, 5, TransactionType.PAYED, none, none, none⟩])], [], 1⟩
    1 1 0 (by decide)

/--
C9.  The analytics window has an inclusive lower bound of now minus N days:
the transaction count is exactly the number of rows whose timestamp is at
least the cutoff, a row exactly at the cutoff passes the window predicate,
and a row strictly older fails it.
-/
theorem analytics_window_inclusive_lower_bound (s : DBState) (mid : Nat)
    (days : Nat) (now : Int) (rows : List LedgerRow) (r : LedgerRow)
    (h : get_merchant_transaction_table s mid = some rows) :
    (get_merchant_transaction_analytics s mid days now).total_transactions
      = (rows.filter (fun row => decide (windowCutoff now days ≤ row.timestamp))).length
    ∧ (r.timestamp = windowCutoff now days → inWindow (windowCutoff now days) r = true)
    ∧ (r.timestamp < windowCutoff now days → inWindow (windowCutoff now days) r = false) := by
  refine ⟨?_, ?_, ?_⟩
  · unfold get_merchant_transaction_analytics
    rw [h]
    simp [inWindow]
  · intro hb
    simp [inWindow, hb]
  · intro hb
    simp [inWindow]
    omega

/--
Witness for C9 at a concrete input: a two-row table where the row exactly at
the one-day cutoff is counted and the row one second older is not.
-/
theorem analytics_window_inclusive_lower_bound_witness :
    (get_merchant_transaction_analytics
        ⟨[(1, [⟨1, none, -86400, 5, TransactionType.PAYED, none, none, none⟩,
               ⟨2, none, -86401, 7, TransactionType.PAYED, none, none, none⟩])], [], 1⟩
        1 1 0).total_transactions
      = ([⟨1, none, -86400, 5, TransactionType.PAYED, none, none, none⟩,
          (⟨2, none, -86401, 7, TransactionType.PAYED, none, none, none⟩ : LedgerRow)].filter
          (fun row => decide (windowCutoff 0 1 ≤ row.timestamp))).length
    ∧ ((⟨1, none, -86400, 5, TransactionType.PAYED, none, none, none⟩ : LedgerRow).timestamp
          = windowCutoff 0 1
        → inWindow (windowCutoff 0 1)
            ⟨1, none, -86400, 5, TransactionType.PAYED, none, none, none⟩ = true)
    ∧ ((⟨2, none, -86401, 7, TransactionType.PAYED, none, none, none⟩ : LedgerRow).timestamp
          < windowCutoff 0 1
        → inWindow (windowCutoff 0 1)
            ⟨2, none, -86401, 7, TransactionType.PAYED, none, none, none⟩ = false) := by
  have h := analytics_window_inclusive_lower_bound
    ⟨[(1, [⟨1, none, -86400, 5, TransactionType.PAYED, none, none, none⟩,
           ⟨2, none, -86401, 7, TransactionType.PAYED, none, none, none⟩])], [], 1⟩
    1 1 0
    [⟨1, none, -86400, 5, TransactionType.PAYED, none, none, none⟩,
     ⟨2, none, -86401, 7, TransactionType.PAYED, none, none, none⟩]
    ⟨1, none, -86400, 5, TransactionType.PAYED, none, none, none⟩ (by decide)
  exact ⟨h.1, h.2.1, fun hb => by decide⟩

/--
C6.  create_merchant_transaction_table never errors (the DDL is issued with
checkfirst), and calling it twice in sequence returns the same schema handle
both times: the second call hits the metadata cache and returns the cached
Table object with the state unchanged.
-/
theorem ensure_table_idempotent (s : RegistryState) (mid : Nat) :
    ∃ t s1, create_merchant_transaction_table s mid = Except.ok (t, s1)
      ∧ create_merchant_transaction_table s1 mid = Except.ok (t, s1) := by
  cases h : s.tables.lookup mid with
  | some t =>
      exact ⟨t, s, by simp [create_merchant_transaction_table, h],
        by simp [create_merchant_transaction_table, h]⟩
  | none =>
      by_cases hdb : mid ∈ s.dbTables
      · refine ⟨⟨mid, s.nextStamp⟩,
          ⟨(mid, ⟨mid, s.nextStamp⟩) :: s.tables, s.dbTables, s.nextStamp + 1⟩, ?_, ?_⟩
        · simp [create_merchant_transaction_table, h, ddl_create, hdb]
        · simp [create_merchant_transaction_table, List.lookup]
      · refine ⟨⟨mid, s.nextStamp⟩,
          ⟨(mid, ⟨mid, s.nextStamp⟩) :: s.tables, mid :: s.dbTables, s.nextStamp + 1⟩, ?_, ?_⟩
        · simp [create_merchant_transaction_table, h, ddl_create, hdb]
        · simp [create_merchant_transaction_table, List.lookup]

/--
Counterexample to C1 as stated: insert_transaction itself performs no
guest PAY_LATER check.  Called directly with is_guest_transaction true and
type PAY_LATER on an empty database it returns normally (transaction id 1)
and a PAY_LATER guest row is inserted into the merchant ledger.
-/
theorem insert_transaction_guest_pay_later_inserts :
    insert_transaction ⟨[], [], 1⟩ 1 none 10 TransactionType.PAY_LATER none none none 0 true
      = ((1, some 1),
         ⟨[(1, [⟨1, some 1, 0, 10, TransactionType.PAY_LATER, none, none, some 1⟩])],
          [⟨1, 1, 0⟩], 2⟩) := by
  decide

/--
C1 amended: the guest PAY_LATER rejection is enforced one layer up, in the
create_transaction route, which answers ApiError.guestPayLater without
calling insert_transaction, so no ledger row is inserted; insert_transaction
itself does not perform the check.
-/
theorem create_transaction_rejects_guest_pay_later (s : DBState) (mid : Nat)
    (d : TransactionCreate) (now : Int)
    (hguest : d.is_guest_transaction = true)
    (hlater : d.type = TransactionType.PAY_LATER) :
    create_transaction s mid d now = Except.error ApiError.guestPayLater := by
  simp [create_transaction, hguest, hlater]

/--
Witness for the amended C1 at a concrete request: a guest PAY_LATER request
is answered with the guestPayLater error.
-/
theorem create_transaction_rejects_guest_pay_later_witness :
    create_transaction ⟨[], [], 1⟩ 1
        ⟨none, 10, TransactionType.PAY_LATER, none, none, none, true⟩ 0
      = Except.error ApiError.guestPayLater :=
  create_transaction_rejects_guest_pay_later ⟨[], [], 1⟩ 1
    ⟨none, 10, TransactionType.PAY_LATER, none, none, none, true⟩ 0 rfl rfl

lemma find?_of_filter_singleton {α : Type} (p : α → Bool) (l : List α) (a : α)
    (h : l.filter p = [a]) : l.find? p = some a := by
  induction l with
  | nil => simp at h
  | cons x xs ih =>
      by_cases hx : p x
      · rw [List.filter_cons_of_pos hx] at h
        obtain ⟨rfl, _⟩ := List.cons_eq_cons.mp h
        simp [List.find?, hx]
      · rw [List.filter_cons_of_neg hx] at h
        simp only [List.find?]
        rw [Bool.of_not_eq_true hx]
        exact ih h

lemma openFor_update (mid itemId : Nat) (pid : Nat) (qty : Int)
    (q : PurchaseListItem) :
    openFor mid itemId (if q.id == pid then { q with quantity_needed := qty } else q)
      = openFor mid itemId q := by
  by_cases h : q.id == pid <;> simp [h, openFor]

/--
C10.  When the merchant owns inventory item X and exactly one open
purchase-list entry for X exists, add_to_purchase_list overwrites that
entry quantity_needed with the requested quantity, creates no second open
entry (the open entries for X are exactly the one updated row), and leaves
the total number of purchase-list rows unchanged.
-/
theorem add_to_purchase_list_upsert (s : InventoryState) (mid itemId : Nat)
    (qty : Int) (p : PurchaseListItem)
    (hitem : (s.items.find? (fun it => it.id == itemId && it.merchant_id == mid)).isSome
      = true)
    (hopen : s.purchase_list.filter (fun q => openFor mid itemId q) = [p]) :
    (add_to_purchase_list s mid itemId qty).toOption.map Prod.fst
        = some { p with quantity_needed := qty }
    ∧ (add_to_purchase_list s mid itemId qty).toOption.map
        (fun r => r.2.purchase_list.filter (fun q => openFor mid itemId q))
        = some [{ p with quantity_needed := qty }]
    ∧ (add_to_purchase_list s mid itemId qty).toOption.map
        (fun r => r.2.purchase_list.length)
        = some s.purchase_list.length := by
  cases hfi : s.items.find? (fun it => it.id == itemId && it.merchant_id == mid) with
  | none => rw [hfi] at hitem; simp at hitem
  | some it =>
      have hfind : s.purchase_list.find? (fun q => openFor mid itemId q) = some p :=
        find?_of_filter_singleton _ _ _ hopen
      have hmap : (s.purchase_list.map (fun q =>
          if q.id == p.id then { q with quantity_needed := qty } else q)).filter
            (fun q => openFor mid itemId q)
          = [{ p with quantity_needed := qty }] := by
        rw [List.filter_map]
        have hcomp : ((fun q => openFor mid itemId q) ∘ (fun q =>
            if q.id == p.id then { q with quantity_needed := qty } else q))
            = fun q => openFor mid itemId q := by
          funext q
          exact openFor_update mid itemId p.id qty q
        rw [hcomp, hopen]
        simp
      have hres : add_to_purchase_list s mid itemId qty
          = Except.ok ({ p with quantity_needed := qty },
              { s with purchase_list := s.purchase_list.map (fun q =>
                  if q.id == p.id then { q with quantity_needed := qty } else q) }) := by
        simp only [add_to_purchase_list, hfi, hfind]
      refine ⟨?_, ?_, ?_⟩
      · rw [hres]; rfl
      · rw [hres]
        exact congrArg some hmap
      · rw [hres]
        show some _ = some _
        exact congrArg some (List.length_map _ _)

/--
Witness for C10 at a concrete input: one open entry for item 2 of merchant 1
with quantity 3 is overwritten to quantity 5; no second open row appears and
the row count stays 2 (the other row is an already purchased one).
-/
theorem add_to_purchase_list_upsert_witness :
    (add_to_purchase_list ⟨[⟨2, 1⟩], [⟨1, 1, 2, 3, false⟩, ⟨2, 1, 2, 4, true⟩], 3⟩
        1 2 5).toOption.map Prod.fst = some ⟨1, 1, 2, 5, false⟩
    ∧ (add_to_purchase_list ⟨[⟨2, 1⟩], [⟨1, 1, 2, 3, false⟩, ⟨2, 1, 2, 4, true⟩], 3⟩
        1 2 5).toOption.map
        (fun r => r.2.purchase_list.filter (fun q => openFor 1 2 q))
        = some [⟨1, 1, 2, 5, false⟩]
    ∧ (add_to_purchase_list ⟨[⟨2, 1⟩], [⟨1, 1, 2, 3, false⟩, ⟨2, 1, 2, 4, true⟩], 3⟩
        1 2 5).toOption.map (fun r => r.2.purchase_list.length)
        = some ([⟨1, 1, 2, 3, false⟩, (⟨2, 1, 2, 4, true⟩ : PurchaseListItem)]).length :=
  add_to_purchase_list_upsert
    ⟨[⟨2, 1⟩], [⟨1, 1, 2, 3, false⟩, ⟨2, 1, 2, 4, true⟩], 3⟩ 1 2 5
    ⟨1, 1, 2, 3, false⟩ (by decide) (by decide)

/-- The amount-positivity ledger invariant, as an executable check over every row of every merchant ledger. -/
def allAmountsPositive (s : DBState) : Bool :=
  s.ledgers.all (fun e => e.2.all (fun row => decide (0 < row.amount)))

lemma mem_updateAssoc {l : List (Nat × List LedgerRow)} {mid : Nat}
    {rows : List LedgerRow} :
    ∀ e ∈ updateAssoc l mid rows, e = (mid, rows) ∨ e ∈ l := by
  induction l with
  | nil =>
      intro e he
      simp only [updateAssoc, List.mem_singleton] at he
      exact Or.inl he
  | cons kv rest ih =>
      intro e he
      obtain ⟨k, v⟩ := kv
      by_cases h : k = mid
      · rw [updateAssoc, if_pos h] at he
        rcases List.mem_cons.mp he with he | he
        · exact Or.inl he
        · exact Or.inr (List.mem_cons_of_mem _ he)
      · rw [updateAssoc, if_neg h] at he
        rcases List.mem_cons.mp he with he | he
        · exact Or.inr (he ▸ List.mem_cons_self _ _)
        · rcases ih e he with h1 | h1
          · exact Or.inl h1
          · exact Or.inr (List.mem_cons_of_mem _ h1)

lemma mem_of_lookup_eq_some {l : List (Nat × List LedgerRow)} {k : Nat}
    {v : List LedgerRow} (h : l.lookup k = some v) : (k, v) ∈ l := by
  induction l with
  | nil => simp [List.lookup] at h
  | cons kv rest ih =>
      obtain ⟨a, b⟩ := kv
      rw [List.lookup] at h
      cases hk : (k == a) with
      | true =>
          rw [hk] at h
          obtain rfl : b = v := by simpa using h
          obtain rfl : k = a := by simpa using hk
          exact List.mem_cons_self _ _
      | false =>
          rw [hk] at h
          exact List.mem_cons_of_mem _ (ih h)

lemma pos_of_mem_ledgerOf {s : DBState} (h : allAmountsPositive s = true)
    (m : Nat) : ∀ row ∈ ledgerOf s m, 0 < row.amount := by
  intro row hr
  unfold ledgerOf get_merchant_transaction_table at hr
  cases hl : s.ledgers.lookup m with
  | none => rw [hl] at hr; simp at hr
  | some rows =>
      rw [hl] at hr
      simp only [Option.getD_some] at hr
      have hmem : (m, rows) ∈ s.ledgers := mem_of_lookup_eq_some hl
      rw [allAmountsPositive, List.all_eq_true] at h
      have h2 := h _ hmem
      rw [List.all_eq_true] at h2
      simpa using h2 row hr

lemma allAmountsPositive_setLedger (s : DBState) (mid : Nat) (L : List LedgerRow)
    (hpos : allAmountsPositive s = true) (hL : ∀ row ∈ L, 0 < row.amount) :
    allAmountsPositive (setLedger s mid L) = true := by
  rw [allAmountsPositive, List.all_eq_true]
  intro e he
  rcases mem_updateAssoc e he with rfl | hmem
  · rw [List.all_eq_true]
    intro row hr
    simpa using hL row hr
  · rw [allAmountsPositive, List.all_eq_true] at hpos
    exact hpos e hmem

lemma allAmountsPositive_get_or_create (s : DBState) (mid : Nat) :
    allAmountsPositive (get_or_create_guest_user s mid).2 = allAmountsPositive s := by
  rw [allAmountsPositive, allAmountsPositive, get_or_create_ledgers]

lemma insert_transaction_preserves_positive (s : DBState) (mid : Nat)
    (uid : Option Nat) (amount : Rat) (tt : TransactionType) (desc : Option String)
    (pm : Option PaymentMethod) (ts : Option Int) (now : Int) (g : Bool)
    (hpos : allAmountsPositive s = true) (hamt : 0 < amount) :
    allAmountsPositive (insert_transaction s mid uid amount tt desc pm ts now g).2
      = true := by
  cases g with
  | false =>
      simp only [insert_transaction, if_neg Bool.false_ne_true]
      apply allAmountsPositive_setLedger _ _ _ hpos
      intro row hr
      rcases List.mem_append.mp hr with hr | hr
      · exact pos_of_mem_ledgerOf hpos mid row hr
      · rw [List.mem_singleton] at hr
        rw [hr]
        exact hamt
  | true =>
      simp only [insert_transaction, if_pos rfl]
      have hpos2 : allAmountsPositive (get_or_create_guest_user s mid).2 = true := by
        rw [allAmountsPositive_get_or_create]; exact hpos
      apply allAmountsPositive_setLedger _ _ _ hpos2
      intro row hr
      rcases List.mem_append.mp hr with hr | hr
      · exact pos_of_mem_ledgerOf hpos2 mid row hr
      · rw [List.mem_singleton] at hr
        rw [hr]
        exact hamt

/--
Counterexample to C5 as stated: the marketplace checkout path validates
neither cart prices nor quantities, so checking out a single zero-priced
item succeeds and inserts a ledger row whose amount is 0, for which the
amount-positivity check fails.
-/
theorem checkout_inserts_nonpositive_amount :
    ((process_checkout ⟨⟨[], [], 1⟩, [], 1, 0, ⟨[], [], [], []⟩⟩
        ⟨[⟨1, "x", 0, 1, "kg", 7, "m", "general"⟩], "online", none, none, true⟩
        0).toOption.map
      (fun r => (ledgerOf r.2.2.2.db 7).map (fun row => row.amount)))
      = some [0]
    ∧ ¬ ((0 : Rat) < 0) := by
  constructor
  · have hstep :
        ((process_checkout ⟨⟨[], [], 1⟩, [], 1, 0, ⟨[], [], [], []⟩⟩
            ⟨[⟨1, "x", 0, 1, "kg", 7, "m", "general"⟩], "online", none, none, true⟩
            0).toOption.map
          (fun r => (ledgerOf r.2.2.2.db 7).map (fun row => row.amount)))
          = some [merchantTotal
              ([⟨1, "x", 0, 1, "kg", 7, "m", "general"⟩].filter
                (fun i => i.merchant_id == 7))] := rfl
    rw [hstep]
    norm_num [merchantTotal, List.filter]
  · norm_num

/--
C5 amended: rows inserted through the merchant transaction-creation route
preserve the amount-positivity invariant, because the request schema
enforces amount greater than zero before the route body runs; the
marketplace checkout path performs no such validation and can insert rows
with non-positive amount.
-/
theorem create_transaction_preserves_positive_amount (s : DBState) (mid : Nat)
    (d : TransactionCreate) (now : Int) (r : Nat × Option Nat) (s1 : DBState)
    (hpos : allAmountsPositive s = true)
    (hval : d.isValid = true)
    (hok : create_transaction s mid d now = Except.ok (r, s1)) :
    allAmountsPositive s1 = true := by
  unfold create_transaction at hok
  split at hok
  · exact absurd hok (by simp)
  · split at hok
    · exact absurd hok (by simp)
    · simp only [Except.ok.injEq] at hok
      have hs1 : s1 = (insert_transaction s mid d.user_id d.amount d.type
          d.description d.payment_method none now d.is_guest_transaction).2 :=
        (congrArg Prod.snd hok).symm
      rw [hs1]
      exact insert_transaction_preserves_positive s mid d.user_id d.amount d.type
        d.description d.payment_method none now d.is_guest_transaction hpos
        (by simpa [TransactionCreate.isValid] using hval)

/--
Witness for the amended C5 at a concrete input: a valid request with amount
10 against an empty database yields a state that still satisfies the
positivity check.
-/
theorem create_transaction_preserves_positive_amount_witness :
    allAmountsPositive
        ⟨[(1, [⟨1, some 2, 0, 10, TransactionType.PAYED, none, none, none⟩])], [], 1⟩
      = true :=
  create_transaction_preserves_positive_amount ⟨[], [], 1⟩ 1
    ⟨some 2, 10, TransactionType.PAYED, none, none, none, false⟩ 0
    (1, some 2)
    ⟨[(1, [⟨1, some 2, 0, 10, TransactionType.PAYED, none, none, none⟩])], [], 1⟩
    (by decide) (by decide) (by rfl)

/-- The deliveries produced by fanning each event out to every open connection of its target merchant. -/
def fanout (conns : List (Nat × List Nat)) (evs : List (Nat × OrderEvent)) :
    List (Nat × Nat × OrderEvent) :=
  evs.flatMap (fun pe => ((conns.lookup pe.1).getD []).map (fun c => (pe.1, c, pe.2)))

lemma fanout_nil (conns : List (Nat × List Nat)) : fanout conns [] = [] := rfl

lemma fanout_cons (conns : List (Nat × List Nat)) (pe : Nat × OrderEvent)
    (evs : List (Nat × OrderEvent)) :
    fanout conns (pe :: evs)
      = ((conns.lookup pe.1).getD []).map (fun c => (pe.1, c, pe.2)) ++ fanout conns evs :=
  rfl

lemma notify_order_update_fields (ns : NotifState) (m : Nat) (ev : OrderEvent) :
    (notify_order_update ns m ev).merchantConns = ns.merchantConns
    ∧ (notify_order_update ns m ev).userConns = ns.userConns
    ∧ (notify_order_update ns m ev).merchantDeliveries
        = ns.merchantDeliveries
          ++ ((ns.merchantConns.lookup m).getD []).map (fun c => (m, c, ev))
    ∧ (ev.user_id = none →
        (notify_order_update ns m ev).userDeliveries = ns.userDeliveries) := by
  cases h : ev.user_id with
  | none =>
      simp only [notify_order_update, h]
      exact ⟨rfl, rfl, rfl, fun _ => rfl⟩
  | some u =>
      by_cases hu : u ≠ 0
      · simp only [notify_order_update, h, if_pos hu]
        refine ⟨rfl, rfl, rfl, ?_⟩
        intro hnone
        simp at hnone
      · simp only [notify_order_update, h, if_neg hu]
        exact ⟨rfl, rfl, rfl, fun _ => rfl⟩

lemma checkoutStep_event_fst (req : CheckoutRequest) (pm : PaymentMethod)
    (now : Int) (st : CheckoutState) (m : Nat) :
    (checkoutStep req pm now st m).event.1 = m := rfl

lemma checkoutStep_notif (req : CheckoutRequest) (pm : PaymentMethod)
    (now : Int) (st : CheckoutState) (m : Nat) :
    (checkoutStep req pm now st m).state.notif
      = notify_order_update st.notif m (checkoutStep req pm now st m).event.2 := rfl

lemma checkoutStep_event_uid (req : CheckoutRequest) (pm : PaymentMethod)
    (now : Int) (st : CheckoutState) (m : Nat)
    (hg : req.is_guest_order = false) :
    (checkoutStep req pm now st m).event.2.user_id = none := by
  simp only [checkoutStep, hg, insert_transaction_result, resolvedUid]
  simp

lemma checkoutLoop_events_fst (req : CheckoutRequest) (pm : PaymentMethod)
    (now : Int) : ∀ (ms : List Nat) (st : CheckoutState),
    ((checkoutLoop req pm now ms st).1.2.2).map Prod.fst = ms := by
  intro ms
  induction ms with
  | nil => intro st; rfl
  | cons m ms ih =>
      intro st
      simp only [checkoutLoop, List.map_cons, checkoutStep_event_fst, ih]

lemma checkoutLoop_conns (req : CheckoutRequest) (pm : PaymentMethod)
    (now : Int) : ∀ (ms : List Nat) (st : CheckoutState),
    (checkoutLoop req pm now ms st).2.notif.merchantConns = st.notif.merchantConns
    ∧ (checkoutLoop req pm now ms st).2.notif.userConns = st.notif.userConns := by
  intro ms
  induction ms with
  | nil => intro st; exact ⟨rfl, rfl⟩
  | cons m ms ih =>
      intro st
      have hstep := notify_order_update_fields st.notif m
        (checkoutStep req pm now st m).event.2
      have ih2 := ih (checkoutStep req pm now st m).state
      constructor
      · simp only [checkoutLoop]
        rw [ih2.1, checkoutStep_notif, hstep.1]
      · simp only [checkoutLoop]
        rw [ih2.2, checkoutStep_notif, hstep.2.1]

lemma checkoutLoop_merchantDeliveries (req : CheckoutRequest) (pm : PaymentMethod)
    (now : Int) : ∀ (ms : List Nat) (st : CheckoutState),
    (checkoutLoop req pm now ms st).2.notif.merchantDeliveries
      = st.notif.merchantDeliveries
        ++ fanout st.notif.merchantConns (checkoutLoop req pm now ms st).1.2.2 := by
  intro ms
  induction ms with
  | nil => intro st; simp [checkoutLoop, fanout_nil]
  | cons m ms ih =>
      intro st
      have hstep := notify_order_update_fields st.notif m
        (checkoutStep req pm now st m).event.2
      have hconns := checkoutLoop_conns req pm now ms (checkoutStep req pm now st m).state
      simp only [checkoutLoop]
      rw [ih, checkoutStep_notif, hstep.2.2.1, hstep.1]
      rw [fanout_cons, checkoutStep_event_fst]
      simp [List.append_assoc]

lemma checkoutLoop_userDeliveries (req : CheckoutRequest) (pm : PaymentMethod)
    (now : Int) (hg : req.is_guest_order = false) : ∀ (ms : List Nat) (st : CheckoutState),
    (checkoutLoop req pm now ms st).2.notif.userDeliveries
      = st.notif.userDeliveries := by
  intro ms
  induction ms with
  | nil => intro st; rfl
  | cons m ms ih =>
      intro st
      have hstep := notify_order_update_fields st.notif m
        (checkoutStep req pm now st m).event.2
      simp only [checkoutLoop]
      rw [ih, checkoutStep_notif,
        hstep.2.2.2 (checkoutStep_event_uid req pm now st m hg)]

lemma firstOccurAux_nodup : ∀ (xs seen : List Nat),
    (firstOccurAux xs seen).Nodup ∧ ∀ y ∈ firstOccurAux xs seen, y ∉ seen := by
  intro xs
  induction xs with
  | nil => intro seen; simp [firstOccurAux]
  | cons x xs ih =>
      intro seen
      by_cases h : x ∈ seen
      · rw [firstOccurAux, if_pos h]
        exact ih seen
      · rw [firstOccurAux, if_neg h]
        obtain ⟨hnd, hnotin⟩ := ih (x :: seen)
        constructor
        · refine List.nodup_cons.mpr ⟨?_, hnd⟩
          intro hx
          exact hnotin x hx (List.mem_cons_self x seen)
        · intro y hy
          rcases List.mem_cons.mp hy with rfl | hy2
          · exact h
          · intro hseen
            exact hnotin y hy2 (List.mem_cons_of_mem x hseen)

lemma merchantsOf_nodup (items : List CartItem) : (merchantsOf items).Nodup := by
  unfold merchantsOf
  exact (firstOccurAux_nodup _ _).1

lemma merchantsOf_cons (i : CartItem) (t : List CartItem) :
    merchantsOf (i :: t)
      = i.merchant_id :: firstOccurAux (t.map (fun x => x.merchant_id)) [i.merchant_id] := by
  simp [merchantsOf, firstOccurAux]

/--
Counterexample to C7 as stated: checking out a one-item cart surfaces the
route-generated id (uuid token 0) in the response while the persisted Order
row carries a different id generated by a second uuid call inside
create_order (token 1); the two are not equal.
-/
theorem checkout_response_id_differs_from_persisted :
    ((process_checkout ⟨⟨[], [], 1⟩, [], 1, 0, ⟨[], [], [], []⟩⟩
        ⟨[⟨1, "x", 2, 1, "kg", 1, "m", "g"⟩], "online", none, none, true⟩
        0).toOption.map
      (fun r => (r.1.order_id, r.2.1.map (fun o => o.order_id))))
      = some (⟨1, 0⟩, [⟨1, 1⟩])
    ∧ (⟨1, 0⟩ : OrderId) ≠ ⟨1, 1⟩ := by
  constructor
  · rfl
  · decide

/--
C7 amended: the order_id of the checkout response is the route-local id
generated for the first merchant partition (the uuid token at the state the
checkout started with), while the Order row persisted for that partition
carries its own id from a second uuid call inside create_order; the two ids
share the merchant but differ in token, so the response id is not the
persisted one.
-/
theorem checkout_primary_order_id (st : CheckoutState) (req : CheckoutRequest)
    (now : Int) (item0 : CartItem)
    (hhead : req.cart_items.head? = some item0)
    (hpm : (paymentMethodOfString req.payment_method).toOption.isSome = true) :
    (process_checkout st req now).toOption.map (fun r => r.1.order_id)
        = some ⟨item0.merchant_id, st.uuid⟩
    ∧ (process_checkout st req now).toOption.map
        (fun r => (r.2.1.map (fun o => o.order_id)).head?)
        = some (some ⟨item0.merchant_id, st.uuid + 1⟩)
    ∧ (⟨item0.merchant_id, st.uuid⟩ : OrderId)
        ≠ ⟨item0.merchant_id, st.uuid + 1⟩ := by
  cases hcart : req.cart_items with
  | nil => rw [hcart] at hhead; cases hhead
  | cons a t =>
      rw [hcart] at hhead
      obtain rfl : a = item0 := by simpa using hhead
      cases hpmm : paymentMethodOfString req.payment_method with
      | error e => rw [hpmm] at hpm; cases hpm
      | ok pm =>
          refine ⟨?_, ?_, ?_⟩
          · simp only [process_checkout, hcart, hpmm, List.isEmpty_cons,
              Bool.false_eq_true, if_false, merchantsOf_cons, checkoutLoop]
            rfl
          · simp only [process_checkout, hcart, hpmm, List.isEmpty_cons,
              Bool.false_eq_true, if_false, merchantsOf_cons, checkoutLoop]
            rfl
          · simp

/--
Witness for the amended C7 at a concrete input: the response id is token 5,
the persisted Order id token 6, and they differ.
-/
theorem checkout_primary_order_id_witness :
    (process_checkout ⟨⟨[], [], 1⟩, [], 1, 5, ⟨[], [], [], []⟩⟩
        ⟨[⟨1, "x", 2, 1, "kg", 3, "m", "g"⟩], "cash", none, none, false⟩
        0).toOption.map (fun r => r.1.order_id)
        = some ⟨(⟨1, "x", 2, 1, "kg", 3, "m", "g"⟩ : CartItem).merchant_id, 5⟩
    ∧ (process_checkout ⟨⟨[], [], 1⟩, [], 1, 5, ⟨[], [], [], []⟩⟩
        ⟨[⟨1, "x", 2, 1, "kg", 3, "m", "g"⟩], "cash", none, none, false⟩
        0).toOption.map (fun r => (r.2.1.map (fun o => o.order_id)).head?)
        = some (some ⟨(⟨1, "x", 2, 1, "kg", 3, "m", "g"⟩ : CartItem).merchant_id, 5 + 1⟩)
    ∧ (⟨(⟨1, "x", 2, 1, "kg", 3, "m", "g"⟩ : CartItem).merchant_id, 5⟩ : OrderId)
        ≠ ⟨(⟨1, "x", 2, 1, "kg", 3, "m", "g"⟩ : CartItem).merchant_id, 5 + 1⟩ :=
  checkout_primary_order_id ⟨⟨[], [], 1⟩, [], 1, 5, ⟨[], [], [], []⟩⟩
    ⟨[⟨1, "x", 2, 1, "kg", 3, "m", "g"⟩], "cash", none, none, false⟩
    0 ⟨1, "x", 2, 1, "kg", 3, "m", "g"⟩ (by decide) (by decide)

/--
Counterexample to C8 as stated: a checkout without the guest flag — the
case of a registered user placing the order — delivers the new_order event
to the merchant connection but to no user connection at all (the route
passes user_id None to the ledger insert), even though a user with an open
connection exists.
-/
theorem checkout_no_user_delivery :
    ((process_checkout ⟨⟨[], [], 1⟩, [], 1, 0, ⟨[(1, [10])], [(5, [20])], [], []⟩⟩
        ⟨[⟨1, "x", 2, 1, "kg", 1, "m", "g"⟩], "online", none, none, false⟩
        0).toOption.map
      (fun r => (r.2.2.2.notif.userDeliveries, r.2.2.2.notif.merchantDeliveries.length)))
      = some ([], 1) := by
  rfl

/--
C8 amended: every successful checkout produces exactly one new_order event
per merchant partition, in partition order, and the final delivery log is
the initial one extended by the fan-out of each event to the open
connections of its partition merchant; no user connection receives anything
when the checkout is not flagged as a guest order, because the route passes
no user id for non-guest orders.
-/
theorem checkout_notification_fanout (st : CheckoutState) (req : CheckoutRequest)
    (now : Int)
    (hne : req.cart_items.isEmpty = false)
    (hpm : (paymentMethodOfString req.payment_method).toOption.isSome = true) :
    (process_checkout st req now).toOption.map (fun r => r.2.2.1.map Prod.fst)
        = some (merchantsOf req.cart_items)
    ∧ (merchantsOf req.cart_items).Nodup
    ∧ (process_checkout st req now).toOption.map
        (fun r => r.2.2.2.notif.merchantDeliveries)
        = (process_checkout st req now).toOption.map
          (fun r => st.notif.merchantDeliveries ++ fanout st.notif.merchantConns r.2.2.1)
    ∧ (req.is_guest_order = false →
        (process_checkout st req now).toOption.map
          (fun r => r.2.2.2.notif.userDeliveries)
          = some st.notif.userDeliveries) := by
  cases hpmm : paymentMethodOfString req.payment_method with
  | error e => rw [hpmm] at hpm; cases hpm
  | ok pm =>
      refine ⟨?_, merchantsOf_nodup req.cart_items, ?_, ?_⟩
      · simp only [process_checkout, hne, hpmm, Bool.false_eq_true, if_false]
        rw [Except.toOption, Option.map]
        rw [checkoutLoop_events_fst]
      · simp only [process_checkout, hne, hpmm, Bool.false_eq_true, if_false]
        rw [Except.toOption, Option.map, Option.map]
        rw [checkoutLoop_merchantDeliveries]
      · intro hg
        simp only [process_checkout, hne, hpmm, Bool.false_eq_true, if_false]
        rw [Except.toOption, Option.map]
        rw [checkoutLoop_userDeliveries req pm now hg]

/--
Witness for the amended C8 at a concrete input: a two-merchant cart produces
the event targets [1, 2] (no duplicates), the delivery log extends by the
fan-out over each merchant connection, and the user delivery log is
untouched by this non-guest checkout.
-/
theorem checkout_notification_fanout_witness :
    (process_checkout
        ⟨⟨[], [], 1⟩, [], 1, 0, ⟨[(1, [10]), (2, [11])], [(5, [20])], [], []⟩⟩
        ⟨[⟨1, "a", 2, 1, "kg", 1, "m1", "g"⟩, ⟨2, "b", 3, 1, "kg", 2, "m2", "g"⟩],
         "online", none, none, false⟩ 0).toOption.map (fun r => r.2.2.1.map Prod.fst)
        = some (merchantsOf
            [⟨1, "a", 2, 1, "kg", 1, "m1", "g"⟩, ⟨2, "b", 3, 1, "kg", 2, "m2", "g"⟩])
    ∧ (merchantsOf
        [⟨1, "a", 2, 1, "kg", 1, "m1", "g"⟩, ⟨2, "b", 3, 1, "kg", 2, "m2", "g"⟩]).Nodup
    ∧ (process_checkout
        ⟨⟨[], [], 1⟩, [], 1, 0, ⟨[(1, [10]), (2, [11])], [(5, [20])], [], []⟩⟩
        ⟨[⟨1, "a", 2, 1, "kg", 1, "m1", "g"⟩, ⟨2, "b", 3, 1, "kg", 2, "m2", "g"⟩],
         "online", none, none, false⟩ 0).toOption.map
        (fun r => r.2.2.2.notif.merchantDeliveries)
        = (process_checkout
            ⟨⟨[], [], 1⟩, [], 1, 0, ⟨[(1, [10]), (2, [11])], [(5, [20])], [], []⟩⟩
            ⟨[⟨1, "a", 2, 1, "kg", 1, "m1", "g"⟩, ⟨2, "b", 3, 1, "kg", 2, "m2", "g"⟩],
             "online", none, none, false⟩ 0).toOption.map
          (fun r => ([] : List (Nat × Nat × OrderEvent))
            ++ fanout [(1, [10]), (2, [11])] r.2.2.1)
    ∧ (false = false →
        (process_checkout
            ⟨⟨[], [], 1⟩, [], 1, 0, ⟨[(1, [10]), (2, [11])], [(5, [20])], [], []⟩⟩
            ⟨[⟨1, "a", 2, 1, "kg", 1, "m1", "g"⟩, ⟨2, "b", 3, 1, "kg", 2, "m2", "g"⟩],
             "online", none, none, false⟩ 0).toOption.map
          (fun r => r.2.2.2.notif.userDeliveries)
          = some ([] : List (Nat × Nat × OrderEvent))) :=
  checkout_notification_fanout
    ⟨⟨[], [], 1⟩, [], 1, 0, ⟨[(1, [10]), (2, [11])], [(5, [20])], [], []⟩⟩
    ⟨[⟨1, "a", 2, 1, "kg", 1, "m1", "g"⟩, ⟨2, "b", 3, 1, "kg", 2, "m2", "g"⟩],
     "online", none, none, false⟩ 0 (by decide) (by decide)

end GraminStore
